import Mathlib

/-
Verification of the tool-invocation and aggregation layer of the
Whatsapp-Competitive-Programming-Assistant repository.

The Python source is shallowly embedded: each Python function that a claim
refers to is translated into an executable Lean definition over explicit data
(dictionaries become structures with `Option` fields for keys accessed with
`.get`, upstream HTTP calls become oracle functions returning `Except`,
raised `McpError`s become `Except.error`).  Machine integers are modelled as
`Int`/`Nat`; Python `//` on a positive divisor coincides with Lean `Int`
division (both floor).
-/

/-! ## Data model (Codeforces API payloads)

Mirrors the dictionary shapes consumed by `tools/codeforces_tools.py` and
`tools/graphing_tools.py`: a problem dict, a submission dict, a `user.info`
entry and a `user.rating` entry. Fields that the code reads with `.get`
(possibly absent) are `Option`; fields it indexes directly are total. -/

structure CFProblem where
  contestId : Nat
  index : String
  name : String
  rating : Option Int
deriving DecidableEq, Repr

structure Submission where
  problem : CFProblem
  verdict : Option String
  creationTimeSeconds : Nat
deriving DecidableEq, Repr

structure UserInfo where
  handle : String
  rating : Option Int
  maxRating : Option Int
  rank : Option String
  registrationTimeSeconds : Option Nat
deriving DecidableEq, Repr

structure RatingChange where
  contestId : Nat
  contestName : String
  rank : Nat
  oldRating : Int
  newRating : Int
  ratingUpdateTimeSeconds : Nat
deriving DecidableEq, Repr

/-- Identity key used by `get_solved_problems` and `get_solved_rating_histogram`
in `tools/codeforces_tools.py`: `f"{contestId}-{index}"`. -/
def dashKeyOf (c : Nat) (idx : String) : String :=
  toString c ++ "-" ++ idx

/-- `dashKeyOf` applied to a problem dict. -/
def dashKey (p : CFProblem) : String :=
  dashKeyOf p.contestId p.index

/-- Identity key used by `recommend_problems` (lines 155-156):
`f"{contestId}{index}"` (no separator). -/
def concatKey (p : CFProblem) : String :=
  toString p.contestId ++ p.index

/-! ## recommend_problems (tools/codeforces_tools.py, lines 129-168) -/

/-- Lines 145-148 of `tools/codeforces_tools.py`: when neither `min_rating`
nor `max_rating` is supplied, the window becomes
`[user_rating, user_rating + 199]` where `user_rating` is
`user_info.get('rating', 1200)`; otherwise the supplied bounds are kept. -/
def resolveWindow (min? max? : Option Int) (info : UserInfo) : Option Int × Option Int :=
  if min? = none ∧ max? = none then
    let userRating := info.rating.getD 1200
    (some userRating, some (userRating + 199))
  else (min?, max?)

/-- Line 155: `solved_ids`, the set of concat-keys of submissions whose
verdict is `'OK'` (modelled as the image list; only membership is used). -/
def solved_ids (subs : List Submission) : List String :=
  (subs.filter (fun s => s.verdict = some "OK")).map (fun s => concatKey s.problem)

/-- The per-problem filter of line 156 of `tools/codeforces_tools.py`:
key not among solved ids, `'rating' in p`, and
`min_rating <= p['rating'] <= max_rating`. -/
def isCandidate (solved : List String) (minR maxR : Int) (p : CFProblem) : Bool :=
  !(decide (concatKey p ∈ solved)) &&
    (match p.rating with
     | some r => decide (minR ≤ r) && decide (r ≤ maxR)
     | none => false)

/-- Line 156: the list of recommendation candidates. -/
def recommendCandidates (problems : List CFProblem) (solved : List String)
    (minR maxR : Int) : List CFProblem :=
  problems.filter (isCandidate solved minR maxR)

/-! ## get_solved_problems (tools/codeforces_tools.py, lines 178-210) -/

/-- Line 191: `sorted(submissions, key=lambda s: s['creationTimeSeconds'],
reverse=True)` — a stable descending sort. -/
def sortByCreationDesc (subs : List Submission) : List Submission :=
  subs.mergeSort (fun a b => decide (b.creationTimeSeconds ≤ a.creationTimeSeconds))

/-- Lines 191-197: the scan that keeps, in order, the first accepted
submission for each dash-key identity (`seen_problems` is the set of keys
already taken). -/
def solvedScan : List Submission → List String → List Submission
  | [], _ => []
  | s :: rest, seen =>
    if s.verdict = some "OK" then
      if dashKey s.problem ∈ seen then solvedScan rest seen
      else s :: solvedScan rest (dashKey s.problem :: seen)
    else solvedScan rest seen

/-- The deduplicated solved list computed by `get_solved_problems`
(`solved_submissions` after the loop of lines 189-197). -/
def get_solved_problems_list (subs : List Submission) : List Submission :=
  solvedScan (sortByCreationDesc subs) []

/-! ## get_solved_rating_histogram (tools/codeforces_tools.py, lines 253-291) -/

/-- Line 271: `rating_bin = (problem['rating'] // bin_size) * bin_size`.
Lean `Int` division is floor division for a positive divisor, matching
Python `//`. -/
def ratingBin (r : Int) (binSize : Nat) : Int :=
  r / (binSize : Int) * (binSize : Int)

/-- `problem_ratings[rating_bin] += 1` on a `defaultdict(int)`, preserving
dict insertion order. -/
def bumpBin : List (Int × Nat) → Int → List (Int × Nat)
  | [], k => [(k, 1)]
  | (a, n) :: rest, k =>
    if a = k then (a, n + 1) :: rest else (a, n) :: bumpBin rest k

/-- Lines 264-273: fold over the submissions accumulating the seen-key set
and the per-bin counts; a submission contributes iff its verdict is `'OK'`,
its problem carries a rating, and its dash-key was not seen before. -/
def histLoop (binSize : Nat) : List Submission → List String → List (Int × Nat) → List (Int × Nat)
  | [], _, bins => bins
  | s :: rest, seen, bins =>
    if s.verdict = some "OK" then
      match s.problem.rating with
      | some r =>
        if dashKey s.problem ∈ seen then histLoop binSize rest seen bins
        else histLoop binSize rest (dashKey s.problem :: seen) (bumpBin bins (ratingBin r binSize))
      | none => histLoop binSize rest seen bins
    else histLoop binSize rest seen bins

/-- The `problem_ratings` mapping built by `get_solved_rating_histogram`. -/
def get_solved_rating_histogram (subs : List Submission) (binSize : Nat) : List (Int × Nat) :=
  histLoop binSize subs [] []

/-! ## plot_performance_graph (tools/graphing_tools.py, lines 100-168) -/

/-- Lines 121-123: `delta = new - old; performance = old + delta * 4`. -/
def performanceOf (rc : RatingChange) : Int :=
  rc.oldRating + (rc.newRating - rc.oldRating) * 4

/-- Lines 114-124: the list of performance ratings, in chronological order. -/
def performance_ratings (changes : List RatingChange) : List Int :=
  (changes.mergeSort (fun a b => decide (a.ratingUpdateTimeSeconds ≤ b.ratingUpdateTimeSeconds))).map
    performanceOf

/-! ## Platform API clients (api_clients/codeforces.py, leetcode.py)

An HTTP-200 JSON payload is a structure; raising `McpError` is modelled as
`Except.error` carrying the message. -/

/-- A Codeforces JSON envelope: `status`, optional `comment`, optional
`result` (of payload type ρ). -/
structure CFEnvelope (ρ : Type) where
  status : Option String
  comment : Option String
  result : Option ρ
deriving DecidableEq, Repr

/-- `CodeforcesAPI.query` (api_clients/codeforces.py, lines 9-14) applied to
an HTTP-200 payload: if the status flag is not `"OK"` raise
`Codeforces Error: {comment or 'Unknown error'}`, else return
`data.get("result", {})` (`dflt` models the `{}` default). -/
def cfQuery {ρ : Type} (dflt : ρ) (data : CFEnvelope ρ) : Except String ρ :=
  if data.status ≠ some "OK" then
    .error ("Codeforces Error: " ++ data.comment.getD "Unknown error")
  else
    .ok (data.result.getD dflt)

/-- A LeetCode GraphQL envelope: the rendered `errors` value when the key is
present, and the optional `data` payload. -/
structure GraphQLEnvelope (δ : Type) where
  errors : Option String
  data : Option δ
deriving DecidableEq, Repr

/-- `LeetCodeAPI._send_query` (api_clients/leetcode.py, lines 9-17) applied
to an HTTP-200 payload: if `"errors"` is present raise
`LeetCode API Error: {errors}`, else return `data.get("data", {})`. -/
def lcSendQuery {δ : Type} (dflt : δ) (p : GraphQLEnvelope δ) : Except String δ :=
  match p.errors with
  | some e => .error ("LeetCode API Error: " ++ e)
  | none => .ok (p.data.getD dflt)

/-! ## CListAPI.get_upcoming_contests (api_clients/clist.py, lines 18-29) -/

/-- `CListAPI.PLATFORM_MAPPING` (api_clients/clist.py, lines 9-16). -/
def PLATFORM_MAPPING : List (String × String) :=
  [("codeforces", "codeforces.com"),
   ("leetcode", "leetcode.com"),
   ("codechef", "codechef.com"),
   ("atcoder", "atcoder.jp"),
   ("topcoder", "topcoder.com"),
   ("codingninjas", "codingninjas.com/codestudio")]

/-- `CListAPI.get_upcoming_contests`: map the requested platforms through
`PLATFORM_MAPPING` (dropping unknown names); if nothing is left return `[]`
without any request, otherwise issue one GET (the oracle `fetch`, keyed by
the comma-joined `resource__in` filter) and return its `objects`.  The
second component counts outbound network requests. -/
def get_upcoming_contests {γ : Type} (platforms : List String)
    (fetch : String → List γ) : List γ × Nat :=
  let resource_names := platforms.filterMap (fun p => List.lookup p PLATFORM_MAPPING)
  if resource_names = [] then ([], 0)
  else (fetch (String.intercalate "," resource_names), 1)

/-! ## GeminiMCPBridge.call_mcp_tool (gemini_bridge.py, lines 63-104)

A tool result's `content` is an ordered list of MCP content parts. -/

/-- An MCP content part: `TextContent` or `ImageContent` (mime type plus
base64 payload). -/
inductive McpContent where
  | text (s : String)
  | image (mimeType : String) (data : String)
deriving DecidableEq, Repr

/-- `_create_image_response` (tools/codeforces_tools.py, lines 77-82): a
caption text part followed by a PNG image part. -/
def create_image_response (text imageBase64 : String) : List McpContent :=
  [.text text, .image "image/png" imageBase64]

/-- The text parts collected (in order) by the loop of gemini_bridge.py
lines 77-79. -/
def textsOf (content : List McpContent) : List String :=
  content.filterMap (fun c => match c with | .text s => some s | .image _ _ => none)

/-- The image count accumulated by gemini_bridge.py lines 80-81. -/
def imageCountOf (content : List McpContent) : Nat :=
  (content.filter (fun c => match c with | .image _ _ => true | .text _ => false)).length

/-- `GeminiMCPBridge.call_mcp_tool`, list-content branch (gemini_bridge.py,
lines 72-87): join the text parts with newlines, append a chart-count note
when any image part is present, fall back to `"No content returned"` when
the result is the empty string. -/
def call_mcp_tool_flatten (content : List McpContent) : String :=
  let response := String.intercalate "\n" (textsOf content)
  let response2 :=
    if imageCountOf content > 0 then
      response ++ "\n[Image generated: " ++ toString (imageCountOf content) ++ " chart(s)]"
    else response
  if response2 = "" then "No content returned" else response2

/-- Substring test (executable), used to state that a rendered message does
or does not mention a handle. -/
def strContains (hay needle : String) : Bool :=
  hay.toList.tails.any (fun t => needle.toList.isPrefixOf t)

/-! ## compare_codeforces_users (tools/codeforces_tools.py, lines 302-396)

The upstream Codeforces calls are abstracted as an oracle; a raised
exception from a call is `Except.error`.  The function's early returns are
plain strings; the full comparison branch is kept structured as the sorted
`comparison_data` list (the final report string is presentation on top of
it). -/

/-- Python `str.lower()` (character-wise lowering; executable so that the
kernel can evaluate concrete comparisons). -/
def pyLower (s : String) : String :=
  ⟨s.data.map Char.toLower⟩

/-- The oracle of upstream `CodeforcesAPI` calls used by the comparison
handler. -/
structure CFOracle where
  userInfo : List String → Except String (List UserInfo)
  ratingChanges : String → Except String (List RatingChange)
  userStatus : String → Nat → Except String (List Submission)

/-- One row of `comparison_data` (lines 333-357).  `contests_count` and
`recent_activity` are `none` when the Python code stores the string
`'N/A'`; `degraded` records the presence of the `'error'` key. -/
structure UserMetrics where
  handle : String
  current_rating : Int
  max_rating : Int
  rank : String
  contests_count : Option Nat
  recent_activity : Option Nat
  registrationTimeSeconds : Nat
  lastChange : Option RatingChange
  degraded : Bool
deriving DecidableEq, Repr

/-- The outcome of `compare_codeforces_users`: an early-returned message
string, or the sorted `comparison_data` that the report is rendered from. -/
inductive CompareOutcome where
  | message (s : String)
  | report (data : List UserMetrics)
deriving DecidableEq, Repr

/-- Line 307: the fixed guard message. -/
def needTwoMessage : String :=
  "❌ Please provide at least 2 handles to compare."

/-- Line 318: the message returned when some requested handles are missing
from the `user.info` result set. -/
def missingUsersMessage (missing : List String) : String :=
  "❌ Could not find the following users: " ++ String.intercalate ", " missing ++
    "\n\nPlease check if these handles exist on Codeforces."

/-- Line 321. -/
def noValidUsersMessage : String :=
  "❌ No valid users found. Please check the handles and try again."

/-- Line 396: the outer `except` branch. -/
def comparisonFailedMessage (e : String) : String :=
  "❌ *Comparison failed*: " ++ e ++
    "\n\nThis might be due to:\n• Network connectivity issues\n• Codeforces API being temporarily unavailable\n• Invalid handle formats\n\nPlease try again in a few moments."

/-- Lines 346-357: the reduced-field row built when a per-user enrichment
call raises. -/
def degradedMetrics (u : UserInfo) : UserMetrics :=
  { handle := u.handle
    current_rating := u.rating.getD 0
    max_rating := u.maxRating.getD 0
    rank := u.rank.getD "Unrated"
    contests_count := none
    recent_activity := none
    registrationTimeSeconds := u.registrationTimeSeconds.getD 0
    lastChange := none
    degraded := true }

/-- Lines 326-357: build one user's metrics row, issuing the two enrichment
calls (`user.rating`, then `user.status` with count 50); any failure
degrades the row.  The second component counts the upstream calls made. -/
def buildMetrics (api : CFOracle) (u : UserInfo) : UserMetrics × Nat :=
  match api.ratingChanges u.handle with
  | .error _ => (degradedMetrics u, 1)
  | .ok changes =>
    match api.userStatus u.handle 50 with
    | .error _ => (degradedMetrics u, 2)
    | .ok subs =>
      ({ handle := u.handle
         current_rating := u.rating.getD 0
         max_rating := u.maxRating.getD 0
         rank := u.rank.getD "Unrated"
         contests_count := some changes.length
         recent_activity := some ((subs.filter (fun s => s.verdict = some "OK")).length)
         registrationTimeSeconds := u.registrationTimeSeconds.getD 0
         lastChange := changes.getLast?
         degraded := false }, 2)

/-- `compare_codeforces_users` (lines 302-396).  Returns the outcome and the
number of upstream API calls issued.  Control flow follows the source:
guard on fewer than two handles (line 306), one `user.info` call, the
missing-handles check (lines 314-318, case-insensitive), the empty-result
check (line 320), then the per-user metrics loop and the stable descending
sort by current rating (line 360). -/
def compare_codeforces_users (handles? : Option (List String)) (api : CFOracle) :
    CompareOutcome × Nat :=
  match handles? with
  | none => (.message needTwoMessage, 0)
  | some handles =>
    if handles.isEmpty || handles.length < 2 then (.message needTwoMessage, 0)
    else
      match api.userInfo handles with
      | .error e => (.message (comparisonFailedMessage e), 1)
      | .ok usersInfo =>
        let found := usersInfo.map (fun u => pyLower u.handle)
        let missing := handles.filter (fun h => !(found.contains (pyLower h)))
        if !missing.isEmpty then (.message (missingUsersMessage missing), 1)
        else if usersInfo.isEmpty then (.message noValidUsersMessage, 1)
        else
          let step := usersInfo.foldl
            (fun (acc : List UserMetrics × Nat) u =>
              let mc := buildMetrics api u
              (acc.1 ++ [mc.1], acc.2 + mc.2)) ([], 1)
          (.report (step.1.mergeSort (fun a b => decide (b.current_rating ≤ a.current_rating))),
           step.2)

/-! ## Fixtures for witnesses and counterexamples -/

/-- A single accepted submission on a rated problem. -/
def demoHistSub (r : Int) : Submission :=
  ⟨⟨1, "A", "Demo Problem", some r⟩, some "OK", 0⟩

/-- A rating-change record with old rating 1500 and new rating 1600. -/
def demoChange : RatingChange :=
  ⟨1, "Demo Round", 100, 1500, 1600, 0⟩

/-- Problemset fixtures with ratings 1200, 1300, 1400, 1500. -/
def demoP1200 : CFProblem := ⟨1, "A", "P1200", some 1200⟩

def demoP1300 : CFProblem := ⟨2, "A", "P1300", some 1300⟩

def demoP1400 : CFProblem := ⟨3, "A", "P1400", some 1400⟩

def demoP1500 : CFProblem := ⟨4, "A", "P1500", some 1500⟩

def demoProblems : List CFProblem := [demoP1200, demoP1300, demoP1400, demoP1500]

/-- `user.info` fixtures: of the requested handles `alice`, `bob`, `carol`,
only `alice` and `carol` exist upstream. -/
def demoAlice : UserInfo := ⟨"alice", some 1500, some 1550, some "specialist", some 0⟩

def demoCarol : UserInfo := ⟨"carol", some 1100, some 1200, some "pupil", some 0⟩

/-- An oracle on which `user.info` for `["alice", "bob", "carol"]` returns
entries for `alice` and `carol` only (`bob` does not exist upstream). -/
def demoOracle : CFOracle where
  userInfo := fun hs =>
    if hs = ["alice", "bob", "carol"] then .ok [demoAlice, demoCarol]
    else .error "Codeforces Error: apiKey: Incorrect request"
  ratingChanges := fun _ => .ok [demoChange]
  userStatus := fun _ _ => .ok [demoHistSub 1050]

/-! ## Claim theorems -/

/-- Helper: membership in the recommendation candidate list is equivalent to
membership in the problemset together with the unsolved / has-rating /
in-window conditions. -/
theorem recommendCandidates_mem (problems : List CFProblem) (solved : List String)
    (minR maxR : Int) (p : CFProblem) :
    p ∈ recommendCandidates problems solved minR maxR ↔
      p ∈ problems ∧ concatKey p ∉ solved ∧
        ∃ r, p.rating = some r ∧ minR ≤ r ∧ r ≤ maxR := by
  rw [recommendCandidates, List.mem_filter]
  constructor
  · rintro ⟨hp, hc⟩
    refine ⟨hp, ?_⟩
    cases hr : p.rating with
    | none => simp [isCandidate, hr] at hc
    | some r =>
      simp only [isCandidate, hr, Bool.and_eq_true, Bool.not_eq_true', decide_eq_false_iff_not,
        decide_eq_true_eq] at hc
      exact ⟨hc.1, r, rfl, hc.2.1, hc.2.2⟩
  · rintro ⟨hp, hs, r, hr, h₁, h₂⟩
    refine ⟨hp, ?_⟩
    simp [isCandidate, hr, hs, h₁, h₂]

/-- C4: when neither an explicit `min_rating` nor an explicit `max_rating`
is supplied, `recommend_problems` filters with the window
`[current_rating, current_rating + 199]` where `current_rating` is the
user's rating from the fetched `user.info` entry. -/
theorem C4_default_rating_window (min? max? : Option Int) (info : UserInfo) (r : Int)
    (hmin : min? = none) (hmax : max? = none) (hr : info.rating = some r) :
    resolveWindow min? max? info = (some r, some (r + 199)) := by
  subst hmin; subst hmax
  simp [resolveWindow, hr]

/-- C4 witness: for a user whose current rating is 1437, the default window
is [1437, 1636]. -/
theorem C4_default_rating_window_witness :
    resolveWindow none none ⟨"alice", some 1437, some 1500, some "specialist", some 0⟩
      = (some 1437, some (1437 + 199)) :=
  C4_default_rating_window none none _ 1437 rfl rfl rfl

/-- C5: the histogram bucket computed for a rated problem equals
`floor(rating / bin_size) * bin_size` (floor taken over the rationals), for
every bin size within the declared bound 100–400; concretely, rating 1050
falls into bucket 1000 for bin sizes 100 and 200, and rating 999 with bin
size 100 falls into bucket 900. -/
theorem C5_histogram_binning (r : Int) (b : Nat) (h₁ : 100 ≤ b) (h₂ : b ≤ 400) :
    ratingBin r b = ⌊(r : ℚ) / (b : ℚ)⌋ * (b : Int)
    ∧ get_solved_rating_histogram [demoHistSub 1050] 100 = [(1000, 1)]
    ∧ get_solved_rating_histogram [demoHistSub 1050] 200 = [(1000, 1)]
    ∧ get_solved_rating_histogram [demoHistSub 999] 100 = [(900, 1)] := by
  refine ⟨?_, by decide, by decide, by decide⟩
  rw [ratingBin, Rat.floor_intCast_div_natCast]

/-- C5 witness: at rating 1050 and bin size 100 the bound holds and the
bucket is 1000. -/
theorem C5_histogram_binning_witness :
    ratingBin 1050 100 = ⌊(1050 : ℚ) / (100 : ℚ)⌋ * (100 : Int)
    ∧ get_solved_rating_histogram [demoHistSub 1050] 100 = [(1000, 1)]
    ∧ get_solved_rating_histogram [demoHistSub 1050] 200 = [(1000, 1)]
    ∧ get_solved_rating_histogram [demoHistSub 999] 100 = [(900, 1)] :=
  C5_histogram_binning 1050 100 (by decide) (by decide)

/-- C6: the derived performance rating of a contest rating-change record is
`old_rating + 4 × (new_rating − old_rating)`; with old rating 1500 and new
rating 1600 it is 1900. -/
theorem C6_performance_formula (rc : RatingChange) :
    performanceOf rc = rc.oldRating + 4 * (rc.newRating - rc.oldRating)
    ∧ (rc.oldRating = 1500 → rc.newRating = 1600 → performanceOf rc = 1900) := by
  constructor
  · rw [performanceOf]; ring
  · intro h₁ h₂
    rw [performanceOf, h₁, h₂]
    norm_num

/-- C6 witness: the record with old rating 1500 and new rating 1600 gets
performance 1900. -/
theorem C6_performance_formula_witness :
    performanceOf demoChange = demoChange.oldRating + 4 * (demoChange.newRating - demoChange.oldRating)
    ∧ performanceOf demoChange = 1900 :=
  ⟨(C6_performance_formula demoChange).1, (C6_performance_formula demoChange).2 rfl rfl⟩

/-- C8: an HTTP-200 payload carrying an application-level error (Codeforces
status flag different from "OK", or a LeetCode GraphQL errors array) is
turned into a raised error carrying the payload's own error message, and is
never returned as a success. -/
theorem C8_payload_level_errors (ρ δ : Type) (dfltR : ρ) (dfltD : δ)
    (env : CFEnvelope ρ) (genv : GraphQLEnvelope δ) (e : String)
    (hcf : env.status ≠ some "OK") (hlc : genv.errors = some e) :
    cfQuery dfltR env = .error ("Codeforces Error: " ++ env.comment.getD "Unknown error")
    ∧ (∀ x, cfQuery dfltR env ≠ .ok x)
    ∧ lcSendQuery dfltD genv = .error ("LeetCode API Error: " ++ e)
    ∧ (∀ x, lcSendQuery dfltD genv ≠ .ok x) := by
  refine ⟨?_, ?_, ?_, ?_⟩
  · simp [cfQuery, hcf]
  · intro x
    simp [cfQuery, hcf]
  · simp [lcSendQuery, hlc]
  · intro x
    simp [lcSendQuery, hlc]

/-- C8 witness: a Codeforces payload with status "FAILED" and a LeetCode
payload with an errors array both raise with the payload's message. -/
theorem C8_payload_level_errors_witness :
    cfQuery (0 : Nat) ⟨some "FAILED", some "handles: User with handle bob not found", none⟩
        = .error ("Codeforces Error: " ++
            (some "handles: User with handle bob not found").getD "Unknown error")
    ∧ (∀ x, cfQuery (0 : Nat) ⟨some "FAILED", some "handles: User with handle bob not found", none⟩ ≠ .ok x)
    ∧ lcSendQuery (0 : Nat) ⟨some "Syntax Error", none⟩
        = .error ("LeetCode API Error: " ++ "Syntax Error")
    ∧ (∀ x, lcSendQuery (0 : Nat) ⟨some "Syntax Error", none⟩ ≠ .ok x) :=
  C8_payload_level_errors Nat Nat 0 0 _ _ "Syntax Error" (by decide) rfl

/-- C9: with no handles, an empty handle list, or a single handle,
`compare_codeforces_users` returns the fixed guard message asking for at
least two handles and issues no upstream API call. -/
theorem C9_too_few_handles (handles? : Option (List String)) (api : CFOracle)
    (h : handles? = none ∨ ∃ hs, handles? = some hs ∧ hs.length < 2) :
    compare_codeforces_users handles? api = (.message needTwoMessage, 0)
    ∧ needTwoMessage = "❌ Please provide at least 2 handles to compare." := by
  refine ⟨?_, rfl⟩
  rcases h with h | ⟨hs, rfl, hlen⟩
  · subst h; rfl
  · simp only [compare_codeforces_users]
    rw [if_pos]
    simp [hlen]

/-- C9 witness: a single handle triggers the guard with zero API calls. -/
theorem C9_too_few_handles_witness :
    compare_codeforces_users (some ["alice"]) demoOracle = (.message needTwoMessage, 0)
    ∧ needTwoMessage = "❌ Please provide at least 2 handles to compare." :=
  C9_too_few_handles (some ["alice"]) demoOracle (Or.inr ⟨["alice"], rfl, by decide⟩)

/-- C10: when no requested platform appears in `PLATFORM_MAPPING`,
`get_upcoming_contests` returns the empty list and issues no network
request. -/
theorem C10_no_supported_platform {γ : Type} (platforms : List String)
    (fetch : String → List γ)
    (h : ∀ p ∈ platforms, List.lookup p PLATFORM_MAPPING = none) :
    get_upcoming_contests platforms fetch = ([], 0) := by
  rw [get_upcoming_contests]
  rw [List.filterMap_eq_nil_iff.mpr h]
  simp

/-- C10 witness: unsupported platform names produce no contests and no
request. -/
theorem C10_no_supported_platform_witness :
    get_upcoming_contests ["hackerrank", "uva"] (fun _ => ([] : List Nat)) = ([], 0) :=
  C10_no_supported_platform ["hackerrank", "uva"] (fun _ => ([] : List Nat)) (by decide)

/-- C2 counterexample: two Mixed results that differ only in the image
payload bytes are flattened by the bridge to the same transport string, so
the ordered sequence of parts (image bytes included) is not forwarded
unchanged. -/
theorem C2_mixed_not_forwarded_counterexample :
    call_mcp_tool_flatten (create_image_response "chart ready" "AAAA")
        = call_mcp_tool_flatten (create_image_response "chart ready" "BBBB")
    ∧ create_image_response "chart ready" "AAAA" ≠ create_image_response "chart ready" "BBBB"
    ∧ call_mcp_tool_flatten (create_image_response "chart ready" "AAAA")
        = "chart ready\n[Image generated: 1 chart(s)]" := by
  refine ⟨rfl, by decide, by decide⟩

/-- C2 (amended): the bridge does not forward a Mixed result unchanged; it
flattens it to a single string determined only by the ordered text parts
and the number of image parts — for the repository's text+image responses
the image payload is replaced by a fixed chart-count note. -/
theorem C2_mixed_flattening (t img : String) (p₁ p₂ : List McpContent)
    (ht : textsOf p₁ = textsOf p₂) (hc : imageCountOf p₁ = imageCountOf p₂) :
    call_mcp_tool_flatten (create_image_response t img)
      = t ++ "\n[Image generated: 1 chart(s)]"
    ∧ call_mcp_tool_flatten p₁ = call_mcp_tool_flatten p₂ := by
  constructor
  · have h1 : textsOf (create_image_response t img) = [t] := rfl
    have h2 : imageCountOf (create_image_response t img) = 1 := rfl
    simp only [call_mcp_tool_flatten, h1, h2]
    rw [show String.intercalate "\n" [t] = t from by
      simp [String.intercalate, String.intercalate.go]]
    norm_num
    rw [show (toString (1 : Nat)) = "1" from rfl]
    have hne : t ++ "\n[Image generated: " ++ "1" ++ " chart(s)]" ≠ "" := by
      intro hcontra
      have := congrArg String.data hcontra
      simp [String.data_append] at this
    rw [if_neg hne]
    rw [String.append_assoc, String.append_assoc]
    congr 1
  · simp only [call_mcp_tool_flatten, ht, hc]

/-- C2 witness: flattening a concrete image response. -/
theorem C2_mixed_flattening_witness :
    call_mcp_tool_flatten (create_image_response "profile card" "iVBOR")
      = "profile card" ++ "\n[Image generated: 1 chart(s)]"
    ∧ call_mcp_tool_flatten [McpContent.text "a", McpContent.image "image/png" "X"]
        = call_mcp_tool_flatten [McpContent.text "a", McpContent.image "image/png" "Y"] :=
  C2_mixed_flattening "profile card" "iVBOR"
    [McpContent.text "a", McpContent.image "image/png" "X"]
    [McpContent.text "a", McpContent.image "image/png" "Y"] rfl rfl

/-- C1 counterexample: comparing `["alice", "bob", "carol"]` where `bob`
does not exist upstream yields only the missing-users error message — one
upstream call, no comparison entries; the message does not even mention the
existing handles `alice` and `carol`. -/
theorem C1_missing_user_aborts_counterexample :
    compare_codeforces_users (some ["alice", "bob", "carol"]) demoOracle
        = (.message (missingUsersMessage ["bob"]), 1)
    ∧ strContains (missingUsersMessage ["bob"]) "alice" = false
    ∧ strContains (missingUsersMessage ["bob"]) "carol" = false
    ∧ strContains (missingUsersMessage ["bob"]) "bob" = true := by
  refine ⟨by decide, by decide, by decide, by decide⟩

/-- C1 (amended): when at least two handles are requested and the
`user.info` call succeeds but at least one handle is missing from its
result set (case-insensitively), `compare_codeforces_users` returns a
single error message listing exactly the missing handles — an explicit
missing-entry indication — and produces no comparison entries for the
existing handles (no further per-user API calls are made). -/
theorem C1_missing_user_aborts (handles : List String) (api : CFOracle)
    (users : List UserInfo) (hlen : 2 ≤ handles.length)
    (hinfo : api.userInfo handles = .ok users)
    (hmissing :
      handles.filter
        (fun h => !((users.map (fun u => pyLower u.handle)).contains (pyLower h))) ≠ []) :
    compare_codeforces_users (some handles) api
      = (.message (missingUsersMessage
          (handles.filter
            (fun h => !((users.map (fun u => pyLower u.handle)).contains (pyLower h))))), 1) := by
  have hne : handles ≠ [] := by
    intro h
    rw [h] at hlen
    simp at hlen
  have hguard : (handles.isEmpty || decide (handles.length < 2)) = false := by
    have hlt : ¬handles.length < 2 := by omega
    simp [List.isEmpty_iff, hne, hlt]
  simp only [compare_codeforces_users, hguard, Bool.false_eq_true, if_false, hinfo]
  have hmiss :
      (handles.filter
        (fun h => !((users.map (fun u => pyLower u.handle)).contains (pyLower h)))).isEmpty
        = false := by
    exact Bool.eq_false_iff.mpr (fun hb => hmissing (List.isEmpty_iff.mp hb))
  rw [hmiss]
  simp

/-- C1 witness: the amended statement at the concrete fixture oracle. -/
theorem C1_missing_user_aborts_witness :
    compare_codeforces_users (some ["alice", "bob", "carol"]) demoOracle
      = (.message (missingUsersMessage
          (["alice", "bob", "carol"].filter
            (fun h => !(([demoAlice, demoCarol].map (fun u => pyLower u.handle)).contains
                (pyLower h))))), 1) :=
  C1_missing_user_aborts ["alice", "bob", "carol"] demoOracle [demoAlice, demoCarol]
    (by decide) rfl (by decide)

/-- Helper: every entry kept by the dedup scan has the accepted verdict. -/
theorem solvedScan_verdict (l : List Submission) :
    ∀ (seen : List String) (s : Submission), s ∈ solvedScan l seen → s.verdict = some "OK" := by
  induction l with
  | nil =>
    intro seen s h
    simp [solvedScan] at h
  | cons a rest ih =>
    intro seen s h
    simp only [solvedScan] at h
    split at h
    · next hOK =>
      split at h
      · exact ih _ _ h
      · rcases List.mem_cons.mp h with rfl | h'
        · exact hOK
        · exact ih _ _ h'
    · exact ih _ _ h

/-- Helper: the number of entries the dedup scan keeps for a given identity
key is 1 when the input holds an accepted submission with that key not
already marked seen, and 0 otherwise. -/
theorem solvedScan_countP (k : String) (l : List Submission) :
    ∀ seen : List String,
      List.countP (fun s => decide (dashKey s.problem = k)) (solvedScan l seen) =
        if k ∈ seen then 0
        else if l.any (fun s => decide (s.verdict = some "OK") && decide (dashKey s.problem = k))
          then 1 else 0 := by
  induction l with
  | nil =>
    intro seen
    simp [solvedScan]
  | cons a rest ih =>
    intro seen
    simp only [solvedScan, List.any_cons]
    by_cases hOK : a.verdict = some "OK"
    · rw [if_pos hOK]
      by_cases hseen : dashKey a.problem ∈ seen
      · rw [if_pos hseen, ih seen]
        by_cases hk : k ∈ seen
        · simp [hk]
        · have hne : ¬dashKey a.problem = k := fun h => hk (h ▸ hseen)
          simp [hk, hOK, hne]
      · rw [if_neg hseen, List.countP_cons, ih (dashKey a.problem :: seen)]
        by_cases hk : dashKey a.problem = k
        · subst hk
          simp [hseen, hOK]
        · have hk' : ¬k = dashKey a.problem := fun h => hk h.symm
          by_cases hkseen : k ∈ seen
          · simp [List.mem_cons, hk, hk', hkseen]
          · simp [List.mem_cons, hk, hk', hkseen, hOK]
    · rw [if_neg hOK, ih seen]
      simp [hOK]

/-- C3: if a submission list holds two accepted submissions for the same
(contest identifier, problem index) pair, the deduplicated solved list of
`get_solved_problems` holds exactly one entry for that identity, and every
entry it holds has the accepted verdict `'OK'`. -/
theorem C3_solved_count_dedup (subs : List Submission) (c : Nat) (idx : String)
    (s₁ s₂ : Submission) (h₁ : s₁ ∈ subs) (h₂ : s₂ ∈ subs)
    (hv₁ : s₁.verdict = some "OK") (hv₂ : s₂.verdict = some "OK")
    (hc₁ : s₁.problem.contestId = c) (hi₁ : s₁.problem.index = idx)
    (hc₂ : s₂.problem.contestId = c) (hi₂ : s₂.problem.index = idx) :
    List.countP (fun s => decide (dashKey s.problem = dashKeyOf c idx))
        (get_solved_problems_list subs) = 1
    ∧ ∀ s ∈ get_solved_problems_list subs, s.verdict = some "OK" := by
  constructor
  · rw [get_solved_problems_list, solvedScan_countP]
    have hmem : s₁ ∈ sortByCreationDesc subs := by
      rw [sortByCreationDesc, List.mem_mergeSort]
      exact h₁
    have hany : (sortByCreationDesc subs).any
        (fun s => decide (s.verdict = some "OK")
          && decide (dashKey s.problem = dashKeyOf c idx)) = true := by
      refine List.any_eq_true.mpr ⟨s₁, hmem, ?_⟩
      simp [hv₁, dashKey, hc₁, hi₁]
    simp [hany]
  · intro s hs
    exact solvedScan_verdict _ _ _ hs

/-- C3 witness: two accepted submissions on problem 10-B (plus an unrelated
rejected one) produce a solved count of exactly 1 for 10-B. -/
theorem C3_solved_count_dedup_witness :
    List.countP (fun s => decide (dashKey s.problem = dashKeyOf 10 "B"))
        (get_solved_problems_list
          [⟨⟨10, "B", "X", some 1000⟩, some "OK", 5⟩,
           ⟨⟨11, "A", "Y", some 900⟩, some "WRONG_ANSWER", 7⟩,
           ⟨⟨10, "B", "X", some 1000⟩, some "OK", 9⟩]) = 1
    ∧ ∀ s ∈ get_solved_problems_list
          [⟨⟨10, "B", "X", some 1000⟩, some "OK", 5⟩,
           ⟨⟨11, "A", "Y", some 900⟩, some "WRONG_ANSWER", 7⟩,
           ⟨⟨10, "B", "X", some 1000⟩, some "OK", 9⟩], s.verdict = some "OK" :=
  C3_solved_count_dedup _ 10 "B"
    ⟨⟨10, "B", "X", some 1000⟩, some "OK", 5⟩
    ⟨⟨10, "B", "X", some 1000⟩, some "OK", 9⟩
    (by simp) (by simp) rfl rfl rfl rfl rfl rfl

/-- C7 counterexample: with candidate ratings [1200, 1300, 1400, 1500] and
window [1300, 1400], a solved set containing the 1300-rated problem's
identity leaves exactly one qualifying candidate, not two — the count does
depend on the solved set. -/
theorem C7_candidate_filter_counterexample :
    (recommendCandidates demoProblems [concatKey demoP1300] 1300 1400).length = 1
    ∧ (recommendCandidates demoProblems [concatKey demoP1300] 1300 1400).length ≠ 2 := by
  refine ⟨by decide, by decide⟩

/-- C7 (amended): a problem qualifies as a recommendation candidate iff its
identity is unsolved, it carries a rating, and the rating lies in
[min, max] inclusive; with candidate ratings [1200, 1300, 1400, 1500] and
window [1300, 1400] exactly two candidates qualify for every solved set
containing none of those candidates' identities; and whatever permutation
the shuffle produces, the truncated recommendation list holds only
qualifying candidates. -/
theorem C7_candidate_filter :
    (∀ (problems : List CFProblem) (solved : List String) (minR maxR : Int) (p : CFProblem),
        p ∈ recommendCandidates problems solved minR maxR ↔
          p ∈ problems ∧ concatKey p ∉ solved ∧
            ∃ r, p.rating = some r ∧ minR ≤ r ∧ r ≤ maxR)
    ∧ (∀ solved : List String, (∀ p ∈ demoProblems, concatKey p ∉ solved) →
        (recommendCandidates demoProblems solved 1300 1400).length = 2)
    ∧ (∀ (problems : List CFProblem) (solved : List String) (minR maxR : Int)
          (shuffled : List CFProblem) (count : Nat),
        shuffled.Perm (recommendCandidates problems solved minR maxR) →
        ∀ p ∈ shuffled.take count,
          concatKey p ∉ solved ∧ ∃ r, p.rating = some r ∧ minR ≤ r ∧ r ≤ maxR) := by
  refine ⟨recommendCandidates_mem, ?_, ?_⟩
  · intro solved h
    have h2 : concatKey demoP1300 ∉ solved := h _ (by simp [demoProblems])
    have h3 : concatKey demoP1400 ∉ solved := h _ (by simp [demoProblems])
    rw [recommendCandidates,
      show demoProblems = [demoP1200, demoP1300, demoP1400, demoP1500] from rfl,
      List.filter_cons, List.filter_cons, List.filter_cons, List.filter_cons]
    rw [show isCandidate solved 1300 1400 demoP1200 = false from by
      simp [isCandidate, demoP1200]]
    rw [show isCandidate solved 1300 1400 demoP1300 = true from by
      simp only [isCandidate, show demoP1300.rating = some 1300 from rfl]
      simp [h2]]
    rw [show isCandidate solved 1300 1400 demoP1400 = true from by
      simp only [isCandidate, show demoP1400.rating = some 1400 from rfl]
      simp [h3]]
    rw [show isCandidate solved 1300 1400 demoP1500 = false from by
      simp [isCandidate, demoP1500]]
    rfl
  · intro problems solved minR maxR shuffled count hperm p hp
    have hmem : p ∈ recommendCandidates problems solved minR maxR :=
      hperm.mem_iff.mp (List.mem_of_mem_take hp)
    have := (recommendCandidates_mem problems solved minR maxR p).mp hmem
    exact ⟨this.2.1, this.2.2⟩

/-- C7 witness: with an empty solved set, exactly two of the four fixture
problems qualify for window [1300, 1400]. -/
theorem C7_candidate_filter_witness :
    (recommendCandidates demoProblems [] 1300 1400).length = 2 :=
  C7_candidate_filter.2.1 [] (by simp)
